import Mathlib

set_option maxHeartbeats 1000000

namespace Fyrox

/-!  Verification of the Fyrox navigational-mesh layer.

The scene-node wrapper (`scene/navmesh.rs`) is embedded directly from the
source.  The pathfinding core (`utils::navmesh`: `Navmesh`, `find_path`,
`NavmeshAgent`) is not part of the excerpt, so its operations are modelled
from the design specification; every such definition carries a doc comment
starting with `Modelled from the spec:`.  The engine's 32-bit float vectors
are embedded as rational-coordinate vectors so that all geometric predicates
stay exact and decidable; the irrational Euclidean norm is replaced by a
rational upper bound of the square root where the code would call `sqrt`.  -/

/-- Modelled from the spec: a 3D point/vector (`Vector3<f32>` in the engine),
with rational coordinates replacing 32-bit floats. -/
structure Vec3 where
  x : ℚ
  y : ℚ
  z : ℚ
deriving DecidableEq, BEq

def Vec3.add (a b : Vec3) : Vec3 := ⟨a.x + b.x, a.y + b.y, a.z + b.z⟩

def Vec3.sub (a b : Vec3) : Vec3 := ⟨a.x - b.x, a.y - b.y, a.z - b.z⟩

def Vec3.smul (t : ℚ) (v : Vec3) : Vec3 := ⟨t * v.x, t * v.y, t * v.z⟩

def Vec3.dot (a b : Vec3) : ℚ := a.x * b.x + a.y * b.y + a.z * b.z

def Vec3.cross (a b : Vec3) : Vec3 :=
  ⟨a.y * b.z - a.z * b.y, a.z * b.x - a.x * b.z, a.x * b.y - a.y * b.x⟩

def Vec3.normSq (v : Vec3) : ℚ := v.x ^ 2 + v.y ^ 2 + v.z ^ 2

/-- Squared Euclidean distance between two points. -/
def distSq (a b : Vec3) : ℚ := Vec3.normSq (a.sub b)

def centroid3 (a b c : Vec3) : Vec3 := Vec3.smul (1 / 3) (a.add (b.add c))

/-- Rational upper bound for the square root of a non-negative rational:
`Nat.sqrt` of the ceiling of `q` scaled by `100^2`, plus one, rescaled.
Stands in for the engine's floating-point `sqrt`. -/
def ratSqrtUB (q : ℚ) : ℚ := ((Nat.sqrt (Int.toNat ⌈q * 10000⌉) + 1 : ℕ) : ℚ) / 100

/-- Modelled from the spec: a triangle of the mesh, three vertex indices
(`TriangleDefinition([u32; 3])` in the engine). -/
abbrev TriangleDefinition := Nat × Nat × Nat

/-- An undirected edge between two vertex indices, normalised so the smaller
index comes first. -/
def undirectedEdge (a b : Nat) : Nat × Nat := (min a b, max a b)

/-- The `k`-th undirected edge of a triangle (`k` taken modulo 3). -/
def triEdge (t : TriangleDefinition) (k : Nat) : Nat × Nat :=
  match k % 3 with
  | 0 => undirectedEdge t.1 t.2.1
  | 1 => undirectedEdge t.2.1 t.2.2
  | _ => undirectedEdge t.2.2 t.1

/-- The three undirected edges of a triangle. -/
def triEdges (t : TriangleDefinition) : List (Nat × Nat) :=
  [triEdge t 0, triEdge t 1, triEdge t 2]

/-- Vertex lookup by index (out-of-range indices read the origin, but
construction rejects them). -/
def vAt (verts : List Vec3) (i : Nat) : Vec3 := verts.getD i ⟨0, 0, 0⟩

/-- Triangle lookup by index. -/
def triAt (tris : List TriangleDefinition) (i : Nat) : TriangleDefinition :=
  tris.getD i (0, 0, 0)

/-- Modelled from the spec: all three vertex indices of the triangle are in
range for the vertex array. -/
def triIndicesValid (t : TriangleDefinition) (nverts : Nat) : Bool :=
  decide (t.1 < nverts) && decide (t.2.1 < nverts) && decide (t.2.2 < nverts)

/-- Modelled from the spec: the near-zero-area tolerance for degenerate
(collinear-vertex) triangles, as a bound on the squared cross-product norm. -/
def areaEps : ℚ := 1 / 100000000

/-- Squared norm of the edge cross product of a triangle: four times its
squared area. -/
def triCrossNormSq (t : TriangleDefinition) (verts : List Vec3) : ℚ :=
  Vec3.normSq
    (Vec3.cross ((vAt verts t.2.1).sub (vAt verts t.1))
      ((vAt verts t.2.2).sub (vAt verts t.1)))

/-- Modelled from the spec: a triangle is degenerate when its area is
near-zero (collinear vertices within an epsilon). -/
def triDegenerate (t : TriangleDefinition) (verts : List Vec3) : Bool :=
  decide (triCrossNormSq t verts ≤ areaEps)

/-- A triangle is invalid when an index is out of range or it is degenerate. -/
def triInvalid (t : TriangleDefinition) (verts : List Vec3) : Bool :=
  !triIndicesValid t verts.length || triDegenerate t verts

/-- Some triangle of the list is invalid. -/
def hasInvalidTriangle (tris : List TriangleDefinition) (verts : List Vec3) : Bool :=
  tris.any (fun t => triInvalid t verts)

/-- The indices of all triangles owning a given undirected edge. -/
def edgeOwners (tris : List TriangleDefinition) (e : Nat × Nat) : List Nat :=
  (List.range tris.length).filter (fun i => decide (e ∈ triEdges (triAt tris i)))

/-- Modelled from the spec: some undirected edge is shared by more than two
triangles (malformed, non-manifold mesh). -/
def hasNonManifoldEdge (tris : List TriangleDefinition) : Bool :=
  tris.any (fun t => (triEdges t).any (fun e => decide (2 < (edgeOwners tris e).length)))

/-- Modelled from the spec: the navmesh owns the vertex array and the triangle
array; adjacency is derived from them (see `Navmesh.neighborAcross`). -/
structure Navmesh where
  vertices : List Vec3
  triangles : List TriangleDefinition
deriving DecidableEq

/-- The `Default` navmesh (empty vertex and triangle arrays), mirroring the
derived `Default` of the Rust `Navmesh`. -/
def Navmesh.empty : Navmesh := ⟨[], []⟩

instance : Inhabited Navmesh := ⟨Navmesh.empty⟩

/-- Modelled from the spec: the error taxonomy of the pathfinding core. -/
inductive NavmeshError where
  | InvalidMesh
  | NonManifoldEdge
  | EmptyMesh
  | NoPath
deriving DecidableEq

/-- Modelled from the spec: `Navmesh::new` validates every triangle (indices
in range, non-degenerate area), then the manifold condition on edges, and only
then returns a mesh; any failure returns an error and no partial mesh. -/
def Navmesh.new (triangles : List TriangleDefinition) (vertices : List Vec3) :
    Except NavmeshError Navmesh :=
  if hasInvalidTriangle triangles vertices then .error .InvalidMesh
  else if hasNonManifoldEdge triangles then .error .NonManifoldEdge
  else .ok { vertices := vertices, triangles := triangles }

/-- Modelled from the spec: the neighbor of triangle `i` across its `k`-th
edge — the unique other triangle sharing that undirected edge, `none` on a
boundary edge. -/
def Navmesh.neighborAcross (m : Navmesh) (i k : Nat) : Option Nat :=
  match m.triangles.get? i with
  | none => none
  | some t => (edgeOwners m.triangles (triEdge t k)).find? (fun j => decide (j ≠ i))

/-!  The scene-node wrapper, embedded from `src/scene/navmesh.rs`.  `Base`,
`BaseBuilder` and `BaseBuilder::build_base` live in other modules of the
engine and carry no navmesh data, so they are abstracted as type parameters
and an arbitrary build function.  -/

/-- The `NavigationalMesh` scene node: a `Base` plus the inner `Navmesh`
(from `src/scene/navmesh.rs`). -/
structure NavigationalMesh (Base : Type) where
  base : Base
  navmesh : Navmesh

/-- `NavigationalMesh::navmesh_ref`: returns the inner navigational mesh. -/
def NavigationalMesh.navmesh_ref {Base : Type} (n : NavigationalMesh Base) : Navmesh :=
  n.navmesh

/-- The `Node` wrapper produced by `Node::new`, restricted to navigational
mesh nodes. -/
structure Node (Base : Type) where
  inner : NavigationalMesh Base

/-- `Node::new` for navigational mesh nodes. -/
def Node.new {Base : Type} (nm : NavigationalMesh Base) : Node Base := ⟨nm⟩

/-- `NavigationalMeshBuilder`: a base builder plus the navmesh to install
(from `src/scene/navmesh.rs`). -/
structure NavigationalMeshBuilder (BaseBuilder : Type) where
  base_builder : BaseBuilder
  navmesh : Navmesh

/-- `NavigationalMeshBuilder::new`: starts from a base builder with the
`Default` navmesh. -/
def NavigationalMeshBuilder.new {BaseBuilder : Type} (base_builder : BaseBuilder) :
    NavigationalMeshBuilder BaseBuilder :=
  { base_builder := base_builder, navmesh := Navmesh.empty }

/-- `NavigationalMeshBuilder::with_navmesh`: sets the actual navigational
mesh. -/
def NavigationalMeshBuilder.with_navmesh {BaseBuilder : Type}
    (b : NavigationalMeshBuilder BaseBuilder) (navmesh : Navmesh) :
    NavigationalMeshBuilder BaseBuilder :=
  { b with navmesh := navmesh }

/-- `NavigationalMeshBuilder::build_navigational_mesh`: builds the node body
from the base builder and the stored navmesh. -/
def NavigationalMeshBuilder.build_navigational_mesh {Base BaseBuilder : Type}
    (build_base : BaseBuilder → Base) (b : NavigationalMeshBuilder BaseBuilder) :
    NavigationalMesh Base :=
  { base := build_base b.base_builder, navmesh := b.navmesh }

/-- `NavigationalMeshBuilder::build_node`: wraps the built navigational mesh
in a `Node`. -/
def NavigationalMeshBuilder.build_node {Base BaseBuilder : Type}
    (build_base : BaseBuilder → Base) (b : NavigationalMeshBuilder BaseBuilder) :
    Node Base :=
  Node.new (b.build_navigational_mesh build_base)

/-!  Point location.  -/

/-- Index of the first list element satisfying a predicate. -/
def findIdxAux {α : Type} (p : α → Bool) : List α → Option Nat
  | [] => none
  | x :: xs => if p x then some 0 else (findIdxAux p xs).map (· + 1)

/-- Modelled from the spec: the projection of `p` onto the plane of triangle
`(a, b, c)` lies inside the triangle — the three same-side tests against the
triangle normal are all non-negative. -/
def containsProjected (a b c p : Vec3) : Bool :=
  let n := Vec3.cross (b.sub a) (c.sub a)
  decide (0 ≤ Vec3.dot (Vec3.cross (b.sub a) (p.sub a)) n) &&
    decide (0 ≤ Vec3.dot (Vec3.cross (c.sub b) (p.sub b)) n) &&
    decide (0 ≤ Vec3.dot (Vec3.cross (a.sub c) (p.sub c)) n)

/-- Containment test for a mesh triangle. -/
def triContains (m : Navmesh) (t : TriangleDefinition) (p : Vec3) : Bool :=
  containsProjected (vAt m.vertices t.1) (vAt m.vertices t.2.1) (vAt m.vertices t.2.2) p

/-- Centroid of the `i`-th mesh triangle. -/
def centroidAt (m : Navmesh) (i : Nat) : Vec3 :=
  centroid3 (vAt m.vertices (triAt m.triangles i).1)
    (vAt m.vertices (triAt m.triangles i).2.1)
    (vAt m.vertices (triAt m.triangles i).2.2)

/-- Index and value of the minimum of a rational list; ties prefer the
earlier element, keeping the result deterministic. -/
def argminAux : List ℚ → Option (Nat × ℚ)
  | [] => none
  | x :: xs =>
      match argminAux xs with
      | none => some (0, x)
      | some (i, v) => if x ≤ v then some (0, x) else some (i + 1, v)

/-- Modelled from the spec: point location — the first triangle whose
projection contains the point, else the triangle with the nearest centroid;
fails with `EmptyMesh` only when the mesh has zero triangles. -/
def Navmesh.locatePoint (m : Navmesh) (p : Vec3) : Except NavmeshError Nat :=
  match findIdxAux (fun t => triContains m t p) m.triangles with
  | some i => .ok i
  | none =>
      match argminAux ((List.range m.triangles.length).map
          (fun i => distSq (centroidAt m i) p)) with
      | some iv => .ok iv.1
      | none => .error .EmptyMesh

/-- Boolean success test for `Except`. -/
def exceptIsOk {ε α : Type} : Except ε α → Bool
  | .ok _ => true
  | .error _ => false

deriving instance DecidableEq for Except

/-!  Path search (A* over the triangle adjacency graph).  -/

/-- Two triangles share an undirected edge. -/
def sharesEdgeB (t1 t2 : TriangleDefinition) : Bool :=
  (triEdges t1).any (fun e => decide (e ∈ triEdges t2))

/-- Modelled from the spec: neighbors of triangle `n` in the adjacency graph —
the triangles sharing an undirected edge with it. -/
def neighborIndices (m : Navmesh) (n : Nat) : List Nat :=
  if n < m.triangles.length then
    (List.range m.triangles.length).filter
      (fun j => decide (j ≠ n) && sharesEdgeB (triAt m.triangles n) (triAt m.triangles j))
  else []

/-- Rational upper approximation of the Euclidean distance between two
triangle centroids (edge cost and heuristic of the A* search). -/
def centroidDistApprox (m : Navmesh) (i j : Nat) : ℚ :=
  ratSqrtUB (distSq (centroidAt m i) (centroidAt m j))

/-- Select the element of least cost from a list; ties prefer the earlier
element (the spec's deterministic insertion-order tie-break). -/
def selectMin {α : Type} (cost : α → ℚ) : List α → Option (α × List α)
  | [] => none
  | a :: rest =>
      match selectMin cost rest with
      | none => some (a, [])
      | some (b, rest') => if cost a ≤ cost b then some (a, rest) else some (b, a :: rest')

/-- The f-cost of an open A* entry `(node, g, parent)`: accumulated cost plus
the centroid-distance heuristic towards the goal. -/
def fCost (m : Navmesh) (goal : Nat) (o : Nat × ℚ × Nat) : ℚ :=
  o.2.1 + centroidDistApprox m o.1 goal

/-- Modelled from the spec: the A* main loop.  Pops the cheapest open entry,
closes it (recording its parent), and pushes its neighbors; returns the
closed list when the goal is popped, `none` when the open list (or the fuel)
runs out. -/
def astarLoop (m : Navmesh) (goal : Nat) :
    Nat → List (Nat × ℚ × Nat) → List (Nat × Nat) → Option (List (Nat × Nat))
  | 0, _, _ => none
  | fuel + 1, opens, visited =>
      match selectMin (fCost m goal) opens with
      | none => none
      | some (o, rest) =>
          if visited.any (fun vp => vp.1 == o.1) then
            astarLoop m goal fuel rest visited
          else if o.1 == goal then
            some ((o.1, o.2.2) :: visited)
          else
            astarLoop m goal fuel
              (rest ++ (neighborIndices m o.1).map
                (fun j => (j, o.2.1 + centroidDistApprox m o.1 j, o.1)))
              ((o.1, o.2.2) :: visited)

/-- Walk the recorded parents back from a node to rebuild the triangle
sequence (the start links to itself). -/
def reconstruct (visited : List (Nat × Nat)) : Nat → Nat → List Nat
  | 0, n => [n]
  | fuel + 1, n =>
      match visited.find? (fun vp => vp.1 == n) with
      | none => [n]
      | some vp => if vp.2 == n then [n] else reconstruct visited fuel vp.2 ++ [n]

/-- Fuel bound for the A* loop: enough iterations to drain every possible
open-list insertion. -/
def astarFuel (m : Navmesh) : Nat :=
  (m.triangles.length + 1) * (m.triangles.length + 1) + m.triangles.length + 2

/-- Modelled from the spec: A* over the adjacency graph from the start
triangle to the goal triangle, returning the ordered triangle sequence from
start to goal inclusive, or `none` when the goal is unreachable. -/
def astar (m : Navmesh) (s g : Nat) : Option (List Nat) :=
  if s = g then some [s]
  else
    match astarLoop m g (astarFuel m) [(s, 0, s)] [] with
    | none => none
    | some visited => some (reconstruct visited (visited.length + 1) g)

/-!  Funnel / string pulling.  -/

/-- Twice the signed area of a triangle projected to the x-z plane (the
navmesh walk plane), the orientation test of the funnel algorithm. -/
def triarea2 (a b c : Vec3) : ℚ :=
  (b.x - a.x) * (c.z - a.z) - (c.x - a.x) * (b.z - a.z)

/-- Modelled from the spec: the inner loop of the string-pulling funnel
algorithm.  Scans the portal list, narrowing the funnel's left and right
bounds; when a bound crosses over, the opposite corner is emitted as a
waypoint and scanning restarts after the apex portal.  The emitted interior
waypoints are returned in order. -/
def stringPullLoop (ps : List (Vec3 × Vec3)) :
    Nat → Nat → Nat → Nat → Vec3 → Vec3 → Vec3 → List Vec3 → List Vec3
  | 0, _, _, _, _, _, _, acc => acc.reverse
  | fuel + 1, i, leftI, rightI, apex, left, right, acc =>
      match ps.get? i with
      | none => acc.reverse
      | some pr =>
          if triarea2 apex right pr.2 ≤ 0 then
            if (right == apex) || (0 < triarea2 apex left pr.2) then
              if 0 ≤ triarea2 apex left pr.1 then
                if (left == apex) || (triarea2 apex pr.2 pr.1 < 0) then
                  stringPullLoop ps fuel (i + 1) i i apex pr.1 pr.2 acc
                else
                  stringPullLoop ps fuel (i + 1) (i + 1) (i + 1) pr.2 pr.2 pr.2
                    (pr.2 :: acc)
              else
                stringPullLoop ps fuel (i + 1) leftI i apex left pr.2 acc
            else
              stringPullLoop ps fuel (leftI + 1) (leftI + 1) (leftI + 1) left left left
                (left :: acc)
          else
            if 0 ≤ triarea2 apex left pr.1 then
              if (left == apex) || (triarea2 apex right pr.1 < 0) then
                stringPullLoop ps fuel (i + 1) i rightI apex pr.1 right acc
              else
                stringPullLoop ps fuel (rightI + 1) (rightI + 1) (rightI + 1) right right
                  right (right :: acc)
            else
              stringPullLoop ps fuel (i + 1) leftI rightI apex left right acc

/-- Interior waypoints produced by string pulling over a portal corridor. -/
def stringPull (portals : List (Vec3 × Vec3)) (start goal : Vec3) : List Vec3 :=
  stringPullLoop ((start, start) :: portals ++ [(goal, goal)])
    ((portals.length + 2) * (portals.length + 2)) 1 0 0 start start start []

/-- Modelled from the spec: the funnel output always begins with the start
point and ends with the goal point; with no portals (a single traversed
triangle) the path is the single straight segment. -/
def funnel (portals : List (Vec3 × Vec3)) (start goal : Vec3) : List Vec3 :=
  match portals with
  | [] => [start, goal]
  | _ => start :: (stringPull portals start goal ++ [goal])

/-- The portal (shared undirected edge, as a vertex-position pair) between
two triangles, when they have one. -/
def sharedPortal (m : Navmesh) (i j : Nat) : Option (Vec3 × Vec3) :=
  match (triEdges (triAt m.triangles i)).find?
      (fun e => decide (e ∈ triEdges (triAt m.triangles j))) with
  | none => none
  | some e => some (vAt m.vertices e.1, vAt m.vertices e.2)

/-- Portals along a triangle corridor, one per consecutive triangle pair. -/
def portalsOf (m : Navmesh) (triPath : List Nat) : List (Vec3 × Vec3) :=
  (triPath.zip triPath.tail).filterMap (fun ij => sharedPortal m ij.1 ij.2)

/-- Modelled from the spec: `find_path` locates the triangles of both query
points, runs A* over the adjacency graph, and funnels the resulting corridor
into the waypoint sequence; unreachable goals report `NoPath`. -/
def Navmesh.findPath (m : Navmesh) (src dst : Vec3) : Except NavmeshError (List Vec3) :=
  match m.locatePoint src with
  | .error e => .error e
  | .ok s =>
      match m.locatePoint dst with
      | .error e => .error e
      | .ok g =>
          match astar m s g with
          | none => .error .NoPath
          | some triPath => .ok (funnel (portalsOf m triPath) src dst)

/-!  Navmesh agent.  -/

/-- Modelled from the spec: the agent state machine — `Idle` (no path, at
rest), `Following` (advancing along an active path), `Stuck` (last plan
attempt failed; holds position until the target changes). -/
inductive AgentState where
  | Idle
  | Following
  | Stuck
deriving DecidableEq

/-- Modelled from the spec: squared waypoint-reached epsilon. -/
def wpEpsSq : ℚ := 1 / 10000

/-- Modelled from the spec: squared re-plan threshold distance for a moved
target. -/
def replanThresholdSq : ℚ := 1 / 10000

/-- Modelled from the spec: `NavmeshAgent` holds the current position, the
target, the movement speed, the active path with a waypoint cursor, the last
target used for planning, the state-machine state, and the stale-path flag. -/
structure NavmeshAgent where
  position : Vec3
  target : Vec3
  speed : ℚ
  path : List Vec3
  cursor : Nat
  lastPlannedTarget : Option Vec3
  state : AgentState
  pathStale : Bool
deriving DecidableEq

/-- Modelled from the spec: an update must re-plan when the path is stale or
absent; a `Stuck` agent retries only on a target change (which re-marks the
path stale). -/
def needsReplan (a : NavmeshAgent) : Bool :=
  a.pathStale || (!(a.state == AgentState.Stuck) && a.path.isEmpty)

/-- Modelled from the spec: the first waypoint beyond the agent's current
position — the first path entry farther than the waypoint epsilon. -/
def firstBeyond (path : List Vec3) (pos : Vec3) : Nat :=
  match findIdxAux (fun w => decide (wpEpsSq < distSq w pos)) path with
  | some i => i
  | none => path.length

/-- Modelled from the spec: advance from `p` toward `wp` by distance `d`,
clamped to not overshoot; the step direction's unit length uses the rational
square-root upper bound, so the step never exceeds `d`. -/
def advance (p wp : Vec3) (d : ℚ) : Vec3 :=
  if distSq p wp ≤ d ^ 2 then wp
  else p.add (Vec3.smul (d / ratSqrtUB (distSq p wp)) (wp.sub p))

/-- Modelled from the spec: the planning half of `update` — when the path is
stale or absent, request a fresh path from the current position to the
target; on failure transition to `Stuck` with position untouched, on success
transition to `Following` and reset the cursor past the current position. -/
def planPhase (a : NavmeshAgent) (m : Navmesh) : NavmeshAgent × Option NavmeshError :=
  if needsReplan a then
    match m.findPath a.position a.target with
    | .error e =>
        ({ a with
            state := AgentState.Stuck
            path := []
            cursor := 0
            pathStale := false
            lastPlannedTarget := some a.target }, some e)
    | .ok p =>
        ({ a with
            state := AgentState.Following
            path := p
            cursor := firstBeyond p a.position
            pathStale := false
            lastPlannedTarget := some a.target }, none)
  else (a, none)

/-- Modelled from the spec: the movement half of `update` — while
`Following`, advance toward the cursor waypoint by `speed * dt` (clamped),
bump the cursor when within epsilon of the waypoint, and become `Idle` once
the cursor passes the final waypoint. -/
def movePhase (a : NavmeshAgent) (dt : ℚ) : NavmeshAgent :=
  match a.state with
  | AgentState.Following =>
      match a.path.get? a.cursor with
      | none => { a with state := AgentState.Idle }
      | some wp =>
          let newPos := advance a.position wp (a.speed * dt)
          let newCur := if distSq newPos wp ≤ wpEpsSq then a.cursor + 1 else a.cursor
          { a with position := newPos, cursor := newCur }
  | _ => a

/-- Modelled from the spec: `NavmeshAgent::update` — lazy re-plan, then one
movement step; errors of the plan attempt are reported to the caller. -/
def NavmeshAgent.update (a : NavmeshAgent) (dt : ℚ) (m : Navmesh) :
    NavmeshAgent × Option NavmeshError :=
  (movePhase (planPhase a m).1 dt, (planPhase a m).2)

/-- Modelled from the spec: `NavmeshAgent::set_target` records the new target
and marks the path stale when the target moved beyond the re-plan threshold
from the last-planned target. -/
def NavmeshAgent.set_target (a : NavmeshAgent) (t : Vec3) : NavmeshAgent :=
  let stale :=
    match a.lastPlannedTarget with
    | none => true
    | some lt => decide (replanThresholdSq < distSq lt t)
  { a with target := t, pathStale := a.pathStale || stale }

/-- Modelled from the spec: `NavmeshAgent::set_speed`. -/
def NavmeshAgent.set_speed (a : NavmeshAgent) (s : ℚ) : NavmeshAgent :=
  { a with speed := s }

/-- A sequence of `update` calls (each with its own time step and mesh),
folded over the agent. -/
def updateMany (a : NavmeshAgent) (steps : List (ℚ × Navmesh)) : NavmeshAgent :=
  steps.foldl (fun b s => (b.update s.1 s.2).1) a

/-!  Example inputs used by witnesses.  -/

/-- Vertices of the spec's single-triangle example mesh. -/
def exTriVerts : List Vec3 := [⟨0, 0, 0⟩, ⟨1, 0, 0⟩, ⟨0, 0, 1⟩]

/-- A triangle list referencing an out-of-range vertex index. -/
def exBadTris : List TriangleDefinition := [(0, 1, 5)]

/-- The spec's single-triangle example mesh with vertices (0,0,0), (1,0,0),
(0,0,1). -/
def exMesh1 : Navmesh := { vertices := exTriVerts, triangles := [(0, 1, 2)] }

/-- A disconnected mesh: two triangle islands sharing no edge. -/
def exMesh2 : Navmesh :=
  { vertices := [⟨0, 0, 0⟩, ⟨1, 0, 0⟩, ⟨0, 0, 1⟩, ⟨10, 0, 10⟩, ⟨11, 0, 10⟩, ⟨10, 0, 11⟩],
    triangles := [(0, 1, 2), (3, 4, 5)] }

/-- The spec's two-triangle quad example. -/
def exQuadVerts : List Vec3 := [⟨-1, 0, 1⟩, ⟨1, 0, 1⟩, ⟨1, 0, -1⟩, ⟨-1, 0, -1⟩]

/-- Triangles of the quad example. -/
def exQuadTris : List TriangleDefinition := [(0, 1, 2), (0, 2, 3)]

/-- The quad example as a mesh value. -/
def exMeshQuad : Navmesh := { vertices := exQuadVerts, triangles := exQuadTris }

/-- An agent on the disconnected mesh whose target sits on the other island,
about to plan. -/
def exAgentStuck : NavmeshAgent :=
  { position := ⟨0, 0, 0⟩, target := ⟨10, 0, 10⟩, speed := 1, path := [],
    cursor := 0, lastPlannedTarget := none, state := AgentState.Idle,
    pathStale := false }

/-- An agent on the single-triangle mesh about to re-plan toward a reachable
target. -/
def exAgentMove : NavmeshAgent :=
  { position := ⟨0, 0, 0⟩, target := ⟨1/2, 0, 1/2⟩, speed := 1, path := [],
    cursor := 0, lastPlannedTarget := none, state := AgentState.Idle,
    pathStale := true }

/-!  Claim theorems.  -/

/-- C1: `Navmesh.new` fails with `InvalidMesh` whenever some triangle
references an out-of-range vertex index or has near-zero area, and on any
construction failure no partial mesh is returned. -/
theorem navmesh_new_invalid (triangles : List TriangleDefinition) (vertices : List Vec3)
    (h : ∃ t ∈ triangles,
      triIndicesValid t vertices.length = false ∨ triDegenerate t vertices = true) :
    Navmesh.new triangles vertices = .error .InvalidMesh ∧
      ∀ e m, Navmesh.new triangles vertices = .error e →
        Navmesh.new triangles vertices ≠ .ok m := by
  have hbad : hasInvalidTriangle triangles vertices = true := by
    rcases h with ⟨t, ht, hcase⟩
    apply List.any_eq_true.mpr
    refine ⟨t, ht, ?_⟩
    unfold triInvalid
    rcases hcase with h1 | h1 <;> simp [h1]
  refine ⟨?_, ?_⟩
  · unfold Navmesh.new
    simp [hbad]
  · intro e m he
    rw [he]
    simp

/-- Witness for C1: a triangle referencing vertex index 5 in a 3-vertex mesh
makes construction fail with `InvalidMesh`. -/
theorem navmesh_new_invalid_witness :
    (∃ t ∈ exBadTris,
      triIndicesValid t exTriVerts.length = false ∨ triDegenerate t exTriVerts = true) ∧
      Navmesh.new exBadTris exTriVerts = .error .InvalidMesh := by
  refine ⟨by decide, ?_⟩
  exact (navmesh_new_invalid exBadTris exTriVerts (by decide)).1

theorem findIdxAux_lt_length {α : Type} (p : α → Bool) :
    ∀ (l : List α) (i : Nat), findIdxAux p l = some i → i < l.length := by
  intro l
  induction l with
  | nil => intro i h; simp [findIdxAux] at h
  | cons x xs ih =>
      intro i h
      unfold findIdxAux at h
      by_cases hp : p x
      · simp [hp] at h
        subst h
        simp
      · simp [hp] at h
        rcases h with ⟨j, hj, hji⟩
        have := ih j hj
        simp only [List.length_cons]
        omega

theorem argminAux_lt_length :
    ∀ (l : List ℚ) (iv : Nat × ℚ), argminAux l = some iv → iv.1 < l.length := by
  intro l
  induction l with
  | nil => intro iv h; simp [argminAux] at h
  | cons x xs ih =>
      intro iv h
      unfold argminAux at h
      cases ha : argminAux xs with
      | none => rw [ha] at h; simp at h; rw [← h]; simp
      | some jv =>
          rw [ha] at h
          by_cases hle : x ≤ jv.2
          · simp [hle] at h; rw [← h]; simp
          · simp [hle] at h
            have := ih jv ha
            rw [← h]
            simp at this ⊢
            omega

theorem argminAux_cons_isSome (x : ℚ) (xs : List ℚ) :
    ∃ iv, argminAux (x :: xs) = some iv := by
  unfold argminAux
  cases argminAux xs with
  | none => exact ⟨(0, x), rfl⟩
  | some jv =>
      by_cases hle : x ≤ jv.2
      · exact ⟨(0, x), by simp [hle]⟩
      · exact ⟨(jv.1 + 1, jv.2), by simp [hle]⟩

theorem argminAux_ne_nil (l : List ℚ) (h : l ≠ []) : ∃ iv, argminAux l = some iv := by
  cases l with
  | nil => exact absurd rfl h
  | cons x xs => exact argminAux_cons_isSome x xs

/-- A successful point-location result is a valid triangle index. -/
theorem locatePoint_ok_lt (m : Navmesh) (p : Vec3) (i : Nat)
    (h : m.locatePoint p = .ok i) : i < m.triangles.length := by
  unfold Navmesh.locatePoint at h
  cases hf : findIdxAux (fun t => triContains m t p) m.triangles with
  | some j =>
      rw [hf] at h
      simp at h
      rw [← h]
      exact findIdxAux_lt_length _ _ _ hf
  | none =>
      rw [hf] at h
      cases ha : argminAux ((List.range m.triangles.length).map
          (fun i => distSq (centroidAt m i) p)) with
      | none => rw [ha] at h; simp at h
      | some iv =>
          rw [ha] at h
          simp at h
          have := argminAux_lt_length _ _ ha
          simp at this
          omega

/-- C9: building a node with `with_navmesh n` and reading it back through
`navmesh_ref` returns exactly `n` (builder-to-accessor round trip). -/
theorem builder_navmesh_round_trip {Base BaseBuilder : Type}
    (build_base : BaseBuilder → Base) (bb : BaseBuilder) (n : Navmesh) :
    (((NavigationalMeshBuilder.new bb).with_navmesh n).build_node
        build_base).inner.navmesh_ref = n :=
  rfl

/-- C10: a builder made by `NavigationalMeshBuilder.new` and built without
`with_navmesh` produces a node whose inner navmesh is the `Default` (empty)
navmesh. -/
theorem builder_default_navmesh {Base BaseBuilder : Type}
    (build_base : BaseBuilder → Base) (bb : BaseBuilder) :
    ((NavigationalMeshBuilder.new bb).build_node build_base).inner.navmesh_ref =
      Navmesh.empty :=
  rfl

theorem locate1_origin : exMesh1.locatePoint ⟨0, 0, 0⟩ = .ok 0 := by
  norm_num [Navmesh.locatePoint, findIdxAux, triContains, containsProjected, vAt,
    exMesh1, exTriVerts, Vec3.cross, Vec3.sub, Vec3.dot]

theorem locate1_half : exMesh1.locatePoint ⟨1/2, 0, 1/2⟩ = .ok 0 := by
  norm_num [Navmesh.locatePoint, findIdxAux, triContains, containsProjected, vAt,
    exMesh1, exTriVerts, Vec3.cross, Vec3.sub, Vec3.dot]

theorem locate1_quarter : exMesh1.locatePoint ⟨1/4, 0, 1/4⟩ = .ok 0 := by
  norm_num [Navmesh.locatePoint, findIdxAux, triContains, containsProjected, vAt,
    exMesh1, exTriVerts, Vec3.cross, Vec3.sub, Vec3.dot]

theorem findPath1_eval :
    exMesh1.findPath ⟨0, 0, 0⟩ ⟨1/2, 0, 1/2⟩ = .ok [⟨0, 0, 0⟩, ⟨1/2, 0, 1/2⟩] := by
  unfold Navmesh.findPath
  rw [locate1_origin, locate1_half]
  rfl

theorem funnel_head_last (portals : List (Vec3 × Vec3)) (s g : Vec3) :
    (funnel portals s g).head? = some s ∧ (funnel portals s g).getLast? = some g := by
  unfold funnel
  cases portals with
  | nil => simp
  | cons a rest =>
      refine ⟨by simp, ?_⟩
      rw [show s :: (stringPull (a :: rest) s g ++ [g]) =
        (s :: stringPull (a :: rest) s g) ++ [g] by simp]
      exact List.getLast?_concat _

/-- C3: every successful `find_path` result begins with the start point and
ends with the goal point; on the spec's single-triangle mesh, the query from
(0,0,0) to (0.5,0,0.5) returns exactly the two-point straight path. -/
theorem find_path_endpoints :
    (∀ (m : Navmesh) (p q : Vec3) (path : List Vec3),
        m.findPath p q = .ok path → path.head? = some p ∧ path.getLast? = some q) ∧
      exMesh1.findPath ⟨0, 0, 0⟩ ⟨1/2, 0, 1/2⟩ =
        .ok [⟨0, 0, 0⟩, ⟨1/2, 0, 1/2⟩] := by
  constructor
  · intro m p q path h
    unfold Navmesh.findPath at h
    cases h1 : m.locatePoint p with
    | error e => rw [h1] at h; exact Except.noConfusion h
    | ok s =>
        rw [h1] at h
        cases h2 : m.locatePoint q with
        | error e => rw [h2] at h; exact Except.noConfusion h
        | ok g =>
            rw [h2] at h
            dsimp only at h
            cases h3 : astar m s g with
            | none => rw [h3] at h; exact Except.noConfusion h
            | some triPath =>
                rw [h3] at h
                have hfun : funnel (portalsOf m triPath) p q = path := by
                  exact Except.ok.inj h
                rw [← hfun]
                exact funnel_head_last _ p q
  · exact findPath1_eval

/-- Witness for (the hypothesis-bearing half of) C3: the endpoint property
instantiated on the single-triangle mesh query. -/
theorem find_path_endpoints_witness :
    exMesh1.findPath ⟨0, 0, 0⟩ ⟨1/2, 0, 1/2⟩ = .ok [⟨0, 0, 0⟩, ⟨1/2, 0, 1/2⟩] ∧
      ([(⟨0, 0, 0⟩ : Vec3), ⟨1/2, 0, 1/2⟩].head? = some ⟨0, 0, 0⟩ ∧
        [(⟨0, 0, 0⟩ : Vec3), ⟨1/2, 0, 1/2⟩].getLast? = some ⟨1/2, 0, 1/2⟩) :=
  ⟨findPath1_eval,
    find_path_endpoints.1 exMesh1 ⟨0, 0, 0⟩ ⟨1/2, 0, 1/2⟩
      [⟨0, 0, 0⟩, ⟨1/2, 0, 1/2⟩] findPath1_eval⟩

/-- C8: when both query points resolve to the same triangle, `find_path`
succeeds and returns exactly the two-point path start-goal. -/
theorem same_triangle_two_point_path (m : Navmesh) (p q : Vec3) (i : Nat)
    (hp : m.locatePoint p = .ok i) (hq : m.locatePoint q = .ok i) :
    m.findPath p q = .ok [p, q] := by
  unfold Navmesh.findPath
  rw [hp, hq]
  simp [astar, portalsOf, funnel]

/-- Witness for C8: both example points lie in triangle 0 of the
single-triangle mesh and the path is exactly the two query points. -/
theorem same_triangle_two_point_path_witness :
    exMesh1.locatePoint ⟨0, 0, 0⟩ = .ok 0 ∧
      exMesh1.locatePoint ⟨1/4, 0, 1/4⟩ = .ok 0 ∧
      exMesh1.findPath ⟨0, 0, 0⟩ ⟨1/4, 0, 1/4⟩ = .ok [⟨0, 0, 0⟩, ⟨1/4, 0, 1/4⟩] :=
  ⟨locate1_origin, locate1_quarter,
    same_triangle_two_point_path exMesh1 ⟨0, 0, 0⟩ ⟨1/4, 0, 1/4⟩ 0
      locate1_origin locate1_quarter⟩

theorem selectMin_mem {α : Type} (cost : α → ℚ) :
    ∀ (l : List α) (b : α) (rest : List α), selectMin cost l = some (b, rest) →
      b ∈ l ∧ ∀ x ∈ rest, x ∈ l := by
  intro l
  induction l with
  | nil => intro b rest h; simp [selectMin] at h
  | cons a tl ih =>
      intro b rest h
      unfold selectMin at h
      cases hs : selectMin cost tl with
      | none =>
          rw [hs] at h
          simp at h
          obtain ⟨hb, hr⟩ := h
          subst hb
          subst hr
          exact ⟨List.mem_cons_self a tl, by simp⟩
      | some br =>
          rw [hs] at h
          obtain ⟨b0, rest0⟩ := br
          obtain ⟨hmem, hsub⟩ := ih b0 rest0 hs
          by_cases hc : cost a ≤ cost b0
          · simp [hc] at h
            obtain ⟨hb, hr⟩ := h
            subst hb
            subst hr
            exact ⟨List.mem_cons_self a tl, fun x hx => List.mem_cons_of_mem a hx⟩
          · simp [hc] at h
            obtain ⟨hb, hr⟩ := h
            subst hb
            subst hr
            refine ⟨List.mem_cons_of_mem a hmem, ?_⟩
            intro x hx
            rcases List.mem_cons.mp hx with hxa | hx0
            · subst hxa; exact List.mem_cons_self x tl
            · exact List.mem_cons_of_mem a (hsub x hx0)

theorem mem_neighborIndices (m : Navmesh) (n j : Nat) (h : j ∈ neighborIndices m n) :
    j < m.triangles.length ∧ n < m.triangles.length ∧
      sharesEdgeB (triAt m.triangles n) (triAt m.triangles j) = true := by
  unfold neighborIndices at h
  by_cases hn : n < m.triangles.length
  · rw [if_pos hn] at h
    rw [List.mem_filter] at h
    obtain ⟨hr, hp⟩ := h
    rw [List.mem_range] at hr
    rw [Bool.and_eq_true] at hp
    exact ⟨hr, hn, hp.2⟩
  · rw [if_neg hn] at h
    exact absurd h (List.not_mem_nil j)

/-- The A* loop cannot reach any triangle outside the island of its open
nodes when no edge crosses the island boundary. -/
theorem astarLoop_none (m : Navmesh) (goal : Nat) (island : Nat → Bool)
    (hcross : ∀ i, i < m.triangles.length → ∀ j, j < m.triangles.length →
      island i = true → island j = false →
      sharesEdgeB (triAt m.triangles i) (triAt m.triangles j) = false)
    (hgoal : island goal = false) :
    ∀ (fuel : Nat) (opens : List (Nat × ℚ × Nat)) (visited : List (Nat × Nat)),
      (∀ o ∈ opens, o.1 < m.triangles.length ∧ island o.1 = true) →
      astarLoop m goal fuel opens visited = none := by
  intro fuel
  induction fuel with
  | zero => intro opens visited _; rfl
  | succ f ih =>
      intro opens visited hgood
      unfold astarLoop
      cases hs : selectMin (fCost m goal) opens with
      | none => rfl
      | some orest =>
          obtain ⟨o, rest⟩ := orest
          obtain ⟨homem, hrest⟩ := selectMin_mem (fCost m goal) opens o rest hs
          obtain ⟨holt, hoisl⟩ := hgood o homem
          have hne : (o.1 == goal) = false := by
            rw [beq_eq_false_iff_ne]
            intro heq
            rw [heq, hgoal] at hoisl
            exact Bool.noConfusion hoisl
          dsimp only
          by_cases hv : (visited.any fun vp => vp.1 == o.1) = true
          · rw [if_pos hv]
            exact ih rest visited (fun x hx => hgood x (hrest x hx))
          · rw [if_neg hv, if_neg (by rw [hne]; exact Bool.false_ne_true)]
            apply ih
            intro x hx
            rcases List.mem_append.mp hx with hx1 | hx2
            · exact hgood x (hrest x hx1)
            · rcases List.mem_map.mp hx2 with ⟨jj, hjj, hxeq⟩
              obtain ⟨hjlt, hnlt, hshare⟩ := mem_neighborIndices m o.1 jj hjj
              rw [← hxeq]
              refine ⟨hjlt, ?_⟩
              cases hisl : island jj with
              | true => rfl
              | false =>
                  have := hcross o.1 hnlt jj hjlt hoisl hisl
                  rw [hshare] at this
                  exact Bool.noConfusion this

/-- When start and goal lie on edge-disjoint islands, A* reports failure. -/
theorem astar_islands_none (m : Navmesh) (s g : Nat) (island : Nat → Bool)
    (hcross : ∀ i, i < m.triangles.length → ∀ j, j < m.triangles.length →
      island i = true → island j = false →
      sharesEdgeB (triAt m.triangles i) (triAt m.triangles j) = false)
    (hs_lt : s < m.triangles.length) (hs_isl : island s = true)
    (hg_isl : island g = false) : astar m s g = none := by
  unfold astar
  have hneq : s ≠ g := by
    intro h
    rw [h, hg_isl] at hs_isl
    exact Bool.noConfusion hs_isl
  rw [if_neg hneq]
  rw [astarLoop_none m g island hcross hg_isl (astarFuel m) [(s, 0, s)] []
    (by intro o ho; simp at ho; rw [ho]; exact ⟨hs_lt, hs_isl⟩)]

/-- C2: on a mesh made of two triangle islands sharing no edge, `find_path`
from a point located on island A to a point located on island B returns
`NoPath` (the island partition is the standard witness that the goal triangle
is unreachable from the start triangle). -/
theorem disconnected_islands_no_path (m : Navmesh) (p q : Vec3) (island : Nat → Bool)
    (s g : Nat)
    (hps : m.locatePoint p = .ok s) (hqg : m.locatePoint q = .ok g)
    (hs_isl : island s = true) (hg_isl : island g = false)
    (hcross : ∀ i, i < m.triangles.length → ∀ j, j < m.triangles.length →
      island i = true → island j = false →
      sharesEdgeB (triAt m.triangles i) (triAt m.triangles j) = false) :
    m.findPath p q = .error NavmeshError.NoPath := by
  unfold Navmesh.findPath
  rw [hps, hqg]
  dsimp only
  rw [astar_islands_none m s g island hcross (locatePoint_ok_lt m p s hps) hs_isl hg_isl]

theorem locate2_islandA : exMesh2.locatePoint ⟨0, 0, 0⟩ = .ok 0 := by
  norm_num [Navmesh.locatePoint, findIdxAux, triContains, containsProjected, vAt,
    exMesh2, Vec3.cross, Vec3.sub, Vec3.dot]

theorem locate2_islandB : exMesh2.locatePoint ⟨10, 0, 10⟩ = .ok 1 := by
  norm_num [Navmesh.locatePoint, findIdxAux, triContains, containsProjected, vAt,
    exMesh2, Vec3.cross, Vec3.sub, Vec3.dot]

/-- Witness for C2: on the concrete two-island mesh, the query from island A
to island B reports `NoPath`. -/
theorem disconnected_islands_no_path_witness :
    exMesh2.locatePoint ⟨0, 0, 0⟩ = .ok 0 ∧ exMesh2.locatePoint ⟨10, 0, 10⟩ = .ok 1 ∧
      (fun i => i == 0) 0 = true ∧ (fun i => i == 0) 1 = false ∧
      exMesh2.findPath ⟨0, 0, 0⟩ ⟨10, 0, 10⟩ = .error NavmeshError.NoPath :=
  ⟨locate2_islandA, locate2_islandB, rfl, rfl,
    disconnected_islands_no_path exMesh2 ⟨0, 0, 0⟩ ⟨10, 0, 10⟩ (fun i => i == 0) 0 1
      locate2_islandA locate2_islandB rfl rfl (by decide)⟩

theorem triEdge_mem_triEdges (t : TriangleDefinition) (k : Nat) (hk : k < 3) :
    triEdge t k ∈ triEdges t := by
  interval_cases k <;> simp [triEdges]

theorem mem_triEdges_exists (t : TriangleDefinition) (e : Nat × Nat)
    (h : e ∈ triEdges t) : ∃ k, k < 3 ∧ triEdge t k = e := by
  simp only [triEdges, List.mem_cons, List.not_mem_nil, or_false] at h
  rcases h with h | h | h
  · exact ⟨0, by omega, h.symm⟩
  · exact ⟨1, by omega, h.symm⟩
  · exact ⟨2, by omega, h.symm⟩

theorem edgeOwners_nodup (tris : List TriangleDefinition) (e : Nat × Nat) :
    (edgeOwners tris e).Nodup :=
  List.Nodup.filter _ (List.nodup_range _)

theorem mem_edgeOwners (tris : List TriangleDefinition) (e : Nat × Nat) (j : Nat) :
    j ∈ edgeOwners tris e ↔ j < tris.length ∧ e ∈ triEdges (triAt tris j) := by
  unfold edgeOwners
  rw [List.mem_filter, List.mem_range]
  simp

theorem two_mem_length_le (l : List Nat) (a b : Nat) (hnd : l.Nodup) (ha : a ∈ l)
    (hb : b ∈ l) (hab : a ≠ b) (hlen : l.length ≤ 2) : l = [a, b] ∨ l = [b, a] := by
  cases l with
  | nil => exact absurd ha (List.not_mem_nil a)
  | cons x tl =>
      cases tl with
      | nil =>
          simp at ha hb
          rw [ha, hb] at hab
          exact absurd rfl hab
      | cons y tl2 =>
          cases tl2 with
          | nil =>
              simp at ha hb hnd
              rcases ha with rfl | rfl <;> rcases hb with rfl | rfl
              · exact absurd rfl hab
              · exact Or.inl rfl
              · exact Or.inr rfl
              · exact absurd rfl hab
          | cons z tl3 =>
              exfalso
              simp [List.length_cons] at hlen

theorem navmesh_new_ok_parts (tris : List TriangleDefinition) (verts : List Vec3)
    (m : Navmesh) (hm : Navmesh.new tris verts = .ok m) :
    hasInvalidTriangle tris verts = false ∧ hasNonManifoldEdge tris = false ∧
      m.vertices = verts ∧ m.triangles = tris := by
  unfold Navmesh.new at hm
  by_cases h1 : hasInvalidTriangle tris verts = true
  · rw [if_pos h1] at hm; exact Except.noConfusion hm
  · rw [if_neg h1] at hm
    by_cases h2 : hasNonManifoldEdge tris = true
    · rw [if_pos h2] at hm; exact Except.noConfusion hm
    · rw [if_neg h2] at hm
      obtain rfl := Except.ok.inj hm
      exact ⟨by simpa using h1, by simpa using h2, rfl, rfl⟩

theorem manifold_owners_le (tris : List TriangleDefinition)
    (h : hasNonManifoldEdge tris = false) (t : TriangleDefinition) (ht : t ∈ tris)
    (e : Nat × Nat) (he : e ∈ triEdges t) : (edgeOwners tris e).length ≤ 2 := by
  unfold hasNonManifoldEdge at h
  rw [List.any_eq_false] at h
  have h1 := h t ht
  rw [Bool.not_eq_true, List.any_eq_false] at h1
  have h2 := h1 e he
  simp at h2
  omega

theorem triAt_get? (tris : List TriangleDefinition) (j : Nat) (hj : j < tris.length) :
    tris.get? j = some (triAt tris j) := by
  unfold triAt
  rw [List.getD_eq_get?]
  rw [List.get?_eq_get hj]
  rfl

/-- C7: for every successfully constructed navmesh, the triangle neighbor
relation is symmetric — when triangle `i` lists `j` as its neighbor across
its `k`-th edge, triangle `j` lists `i` back across its matching edge (the
same undirected vertex pair). -/
theorem neighbor_relation_symmetric (tris : List TriangleDefinition) (verts : List Vec3)
    (m : Navmesh) (i k j : Nat)
    (hm : Navmesh.new tris verts = .ok m) (hk : k < 3)
    (hn : m.neighborAcross i k = some j) :
    ∃ kk, kk < 3 ∧
      triEdge (triAt m.triangles j) kk = triEdge (triAt m.triangles i) k ∧
      m.neighborAcross j kk = some i := by
  obtain ⟨hinv, hman, hverts, htris⟩ := navmesh_new_ok_parts tris verts m hm
  unfold Navmesh.neighborAcross at hn
  cases hgi : m.triangles.get? i with
  | none => rw [hgi] at hn; exact Option.noConfusion hn
  | some t =>
      rw [hgi] at hn
      dsimp only at hn
      have hjmem : j ∈ edgeOwners m.triangles (triEdge t k) :=
        List.mem_of_find?_eq_some hn
      have hji : j ≠ i := by
        have := List.find?_some hn
        simpa using this
      have hilt : i < m.triangles.length := by
        rcases List.get?_eq_some.mp hgi with ⟨h, _⟩
        exact h
      have htiAt : triAt m.triangles i = t := by
        unfold triAt
        rw [List.getD_eq_get?, hgi]
        rfl
      have himem : i ∈ edgeOwners m.triangles (triEdge t k) := by
        rw [mem_edgeOwners]
        exact ⟨hilt, by rw [htiAt]; exact triEdge_mem_triEdges t k hk⟩
      obtain ⟨hjlt, hje⟩ := (mem_edgeOwners _ _ _).mp hjmem
      have htmem : t ∈ tris := by
        have := List.get?_mem hgi
        rwa [htris] at this
      have hlen : (edgeOwners m.triangles (triEdge t k)).length ≤ 2 := by
        rw [htris]
        exact manifold_owners_le tris hman t htmem (triEdge t k)
          (triEdge_mem_triEdges t k hk)
      have hnd : (edgeOwners m.triangles (triEdge t k)).Nodup := edgeOwners_nodup _ _
      have hpair := two_mem_length_le _ j i hnd hjmem himem hji hlen
      obtain ⟨kk, hkk, hkke⟩ := mem_triEdges_exists (triAt m.triangles j) (triEdge t k) hje
      refine ⟨kk, hkk, by rw [hkke, htiAt], ?_⟩
      unfold Navmesh.neighborAcross
      rw [triAt_get? m.triangles j hjlt]
      dsimp only
      rw [hkke]
      have hij : i ≠ j := Ne.symm hji
      rcases hpair with hl | hl <;> rw [hl] <;> simp [List.find?, hij]

/-- The construction of the spec's quad mesh succeeds. -/
theorem quad_new_eval : Navmesh.new exQuadTris exQuadVerts = .ok exMeshQuad := by
  have h1 : hasInvalidTriangle exQuadTris exQuadVerts = false := by
    norm_num [hasInvalidTriangle, triInvalid, triIndicesValid, triDegenerate,
      triCrossNormSq, vAt, areaEps, Vec3.cross, Vec3.sub, Vec3.normSq,
      exQuadTris, exQuadVerts]
  have h2 : hasNonManifoldEdge exQuadTris = false := rfl
  unfold Navmesh.new
  rw [h1, h2]
  rfl

/-- Witness for C7: on the quad mesh, triangle 0 lists triangle 1 across its
third edge, and triangle 1 lists triangle 0 back across the matching edge. -/
theorem neighbor_relation_symmetric_witness :
    Navmesh.new exQuadTris exQuadVerts = .ok exMeshQuad ∧ (2 : Nat) < 3 ∧
      exMeshQuad.neighborAcross 0 2 = some 1 ∧
      (∃ kk, kk < 3 ∧
        triEdge (triAt exMeshQuad.triangles 1) kk =
          triEdge (triAt exMeshQuad.triangles 0) 2 ∧
        exMeshQuad.neighborAcross 1 kk = some 0) :=
  ⟨quad_new_eval, by omega, rfl,
    neighbor_relation_symmetric exQuadTris exQuadVerts exMeshQuad 0 2 1
      quad_new_eval (by omega) rfl⟩

/-- C6: point location is total and deterministic — it succeeds exactly when
the mesh has at least one triangle, and returns `EmptyMesh` exactly when the
mesh has zero triangles (determinism is inherent: `locatePoint` is a
function). -/
theorem locate_point_total (m : Navmesh) (p : Vec3) :
    exceptIsOk (m.locatePoint p) = !m.triangles.isEmpty ∧
      (m.locatePoint p = .error .EmptyMesh ↔ m.triangles = []) := by
  unfold Navmesh.locatePoint
  cases hf : findIdxAux (fun t => triContains m t p) m.triangles with
  | some j =>
      have hlt := findIdxAux_lt_length _ _ _ hf
      have hne : m.triangles ≠ [] := by
        intro hnil
        rw [hnil] at hlt
        simp at hlt
      constructor
      · simp [exceptIsOk, List.isEmpty_iff, hne]
      · simp [hne]
  | none =>
      cases hl : m.triangles with
      | nil =>
          simp [exceptIsOk, argminAux]
      | cons t ts =>
          have hne : (List.map (fun i => distSq (centroidAt m i) p)
              (List.range (t :: ts).length)) ≠ [] := by simp
          rcases argminAux_ne_nil (List.map (fun i => distSq (centroidAt m i) p)
              (List.range (t :: ts).length)) hne with ⟨iv, hiv⟩
          rw [hiv]
          simp [exceptIsOk]

/-!  Agent lemmas: C4 and C5.  -/

theorem distSq_self (a : Vec3) : distSq a a = 0 := by
  simp [distSq, Vec3.normSq, Vec3.sub, sub_self]

theorem distSq_comm (a b : Vec3) : distSq a b = distSq b a := by
  simp only [distSq, Vec3.normSq, Vec3.sub]
  ring

theorem ratSqrtUB_pos (q : ℚ) : 0 < ratSqrtUB q := by
  unfold ratSqrtUB
  apply div_pos
  · exact_mod_cast Nat.succ_pos _
  · norm_num

theorem ratSqrtUB_sq (q : ℚ) (hq : 0 ≤ q) : q ≤ ratSqrtUB q ^ 2 := by
  unfold ratSqrtUB
  have hc : (0 : ℤ) ≤ ⌈q * 10000⌉ := Int.ceil_nonneg (by positivity)
  have hn4 : ((Int.toNat ⌈q * 10000⌉ : ℕ) : ℚ) = ((⌈q * 10000⌉ : ℤ) : ℚ) := by
    exact_mod_cast congrArg (fun z : ℤ => (z : ℚ)) (Int.toNat_of_nonneg hc)
  have h1 : q * 10000 ≤ ((Int.toNat ⌈q * 10000⌉ : ℕ) : ℚ) := by
    rw [hn4]
    exact Int.le_ceil _
  have h2 : ((Int.toNat ⌈q * 10000⌉ : ℕ) : ℚ) <
      ((Nat.sqrt (Int.toNat ⌈q * 10000⌉) + 1 : ℕ) : ℚ) ^ 2 := by
    have h := Nat.lt_succ_sqrt (Int.toNat ⌈q * 10000⌉)
    have h3 : (Int.toNat ⌈q * 10000⌉ : ℚ) <
        ((Nat.sqrt (Int.toNat ⌈q * 10000⌉) + 1) * (Nat.sqrt (Int.toNat ⌈q * 10000⌉) + 1) : ℕ) := by
      exact_mod_cast h
    calc ((Int.toNat ⌈q * 10000⌉ : ℕ) : ℚ) < _ := h3
      _ = ((Nat.sqrt (Int.toNat ⌈q * 10000⌉) + 1 : ℕ) : ℚ) ^ 2 := by push_cast; ring
  rw [div_pow, le_div_iff (by norm_num : (0 : ℚ) < 100 ^ 2)]
  nlinarith [h1, h2]

theorem distSq_add_smul (p v : Vec3) (t : ℚ) :
    distSq (p.add (Vec3.smul t v)) p = t ^ 2 * Vec3.normSq v := by
  simp only [distSq, Vec3.normSq, Vec3.add, Vec3.smul, Vec3.sub]
  ring

/-- A clamped advance step never moves farther than the requested distance
(in squared form). -/
theorem advance_distSq_le (p wp : Vec3) (d : ℚ) :
    distSq (advance p wp d) p ≤ d ^ 2 := by
  unfold advance
  by_cases h : distSq p wp ≤ d ^ 2
  · rw [if_pos h, distSq_comm]
    exact h
  · rw [if_neg h, distSq_add_smul]
    push_neg at h
    have hq0 : 0 < distSq p wp := lt_of_le_of_lt (sq_nonneg d) h
    have hu := ratSqrtUB_pos (distSq p wp)
    have husq := ratSqrtUB_sq (distSq p wp) (le_of_lt hq0)
    have hnv : Vec3.normSq (wp.sub p) = distSq wp p := rfl
    rw [hnv, distSq_comm wp p, div_pow, div_mul_eq_mul_div,
      div_le_iff (by positivity)]
    exact mul_le_mul_of_nonneg_left husq (sq_nonneg d)

theorem movePhase_distSq_le (b : NavmeshAgent) (dt : ℚ) :
    distSq (movePhase b dt).position b.position ≤ (b.speed * dt) ^ 2 := by
  unfold movePhase
  cases hb : b.state with
  | Following =>
      cases hg : b.path.get? b.cursor with
      | none =>
          dsimp only
          rw [distSq_self]
          positivity
      | some wp =>
          dsimp only
          exact advance_distSq_le _ _ _
  | Idle =>
      dsimp only
      rw [distSq_self]
      positivity
  | Stuck =>
      dsimp only
      rw [distSq_self]
      positivity

theorem planPhase_position (a : NavmeshAgent) (m : Navmesh) :
    (planPhase a m).1.position = a.position := by
  unfold planPhase
  by_cases h : needsReplan a = true
  · rw [if_pos h]
    cases hf : m.findPath a.position a.target <;> rfl
  · rw [if_neg h]

theorem planPhase_speed (a : NavmeshAgent) (m : Navmesh) :
    (planPhase a m).1.speed = a.speed := by
  unfold planPhase
  by_cases h : needsReplan a = true
  · rw [if_pos h]
    cases hf : m.findPath a.position a.target <;> rfl
  · rw [if_neg h]

/-- C5: a single `update` call — including one that re-plans because the
target moved — moves the agent by at most `speed * dt` (stated in squared
form, equivalent for the non-negative speed and time step of the claim); a
fresh path starts at the live position, so there is no backward snap. -/
theorem update_step_bound (a : NavmeshAgent) (dt : ℚ) (m : Navmesh)
    (hs : 0 ≤ a.speed) (hd : 0 ≤ dt) :
    distSq ((a.update dt m).1.position) a.position ≤ (a.speed * dt) ^ 2 := by
  unfold NavmeshAgent.update
  dsimp only
  have h1 := movePhase_distSq_le (planPhase a m).1 dt
  rw [planPhase_position, planPhase_speed] at h1
  exact h1

/-- Witness for C5: the example agent re-plans on the single-triangle mesh
and still moves by at most `speed * dt`. -/
theorem update_step_bound_witness :
    (0 : ℚ) ≤ exAgentMove.speed ∧ (0 : ℚ) ≤ (1 : ℚ) ∧
      distSq ((exAgentMove.update 1 exMesh1).1.position) exAgentMove.position ≤
        (exAgentMove.speed * 1) ^ 2 :=
  ⟨by norm_num [exAgentMove], by norm_num,
    update_step_bound exAgentMove 1 exMesh1 (by norm_num [exAgentMove]) (by norm_num)⟩

theorem update_dormant (b : NavmeshAgent) (dt : ℚ) (m : Navmesh)
    (hst : b.state = AgentState.Stuck) (hsf : b.pathStale = false) :
    (b.update dt m).1 = b := by
  have hplan : planPhase b m = (b, none) := by
    unfold planPhase
    have hnr : needsReplan b = false := by
      unfold needsReplan
      rw [hst, hsf]
      simp
    rw [hnr]
    simp
  unfold NavmeshAgent.update
  rw [hplan]
  dsimp only
  unfold movePhase
  rw [hst]

theorem updateMany_dormant (b : NavmeshAgent) (steps : List (ℚ × Navmesh))
    (hst : b.state = AgentState.Stuck) (hsf : b.pathStale = false) :
    updateMany b steps = b := by
  induction steps with
  | nil => rfl
  | cons s rest ih =>
      unfold updateMany
      rw [List.foldl_cons]
      rw [update_dormant b s.1 s.2 hst hsf]
      exact ih

/-- C4: when an `update` triggers a plan that fails with `NoPath`, the agent
transitions to `Stuck` with its position unchanged, and its position stays
unchanged across any further `update` calls until the target changes. -/
theorem update_nopath_stuck (a : NavmeshAgent) (dt : ℚ) (m : Navmesh)
    (hneed : needsReplan a = true)
    (hfail : m.findPath a.position a.target = .error NavmeshError.NoPath) :
    (a.update dt m).1.state = AgentState.Stuck ∧
      (a.update dt m).1.position = a.position ∧
      ∀ steps, (updateMany ((a.update dt m).1) steps).position = a.position := by
  have hupd : (a.update dt m).1 =
      { a with
          state := AgentState.Stuck
          path := []
          cursor := 0
          pathStale := false
          lastPlannedTarget := some a.target } := by
    unfold NavmeshAgent.update planPhase
    rw [if_pos hneed, hfail]
    rfl
  rw [hupd]
  refine ⟨rfl, rfl, ?_⟩
  intro steps
  rw [updateMany_dormant _ steps rfl rfl]

/-- The disconnected-mesh query of the example agent fails with `NoPath`. -/
theorem findPath2_nopath :
    exMesh2.findPath ⟨0, 0, 0⟩ ⟨10, 0, 10⟩ = .error NavmeshError.NoPath := by
  unfold Navmesh.findPath
  rw [locate2_islandA, locate2_islandB]
  dsimp only
  rw [astar_islands_none exMesh2 0 1 (fun i => i == 0) (by decide)
    (locatePoint_ok_lt exMesh2 ⟨0, 0, 0⟩ 0 locate2_islandA) rfl rfl]

/-- Witness for C4: the example agent plans toward the other island, gets
`NoPath`, becomes `Stuck` and never moves again. -/
theorem update_nopath_stuck_witness :
    needsReplan exAgentStuck = true ∧
      exMesh2.findPath exAgentStuck.position exAgentStuck.target =
        .error NavmeshError.NoPath ∧
      ((exAgentStuck.update 1 exMesh2).1.state = AgentState.Stuck ∧
        (exAgentStuck.update 1 exMesh2).1.position = exAgentStuck.position ∧
        ∀ steps, (updateMany ((exAgentStuck.update 1 exMesh2).1) steps).position =
          exAgentStuck.position) :=
  ⟨rfl, findPath2_nopath,
    update_nopath_stuck exAgentStuck 1 exMesh2 rfl findPath2_nopath⟩

end Fyrox
